import Mathlib

/-! Shallow embedding of the agora repository.

The repository consists of a SQL DDL script defining six tables
(users, organizers, events, ticket_tiers, tickets, transactions) with
UUID primary keys, foreign keys declared ON DELETE CASCADE, a shared
trigger function update_updated_at_column bound to six BEFORE UPDATE
triggers, and a React component rendering a static list of organizer
cards.

Tables are embedded as lists of row structures; UUIDs as Nat, TIMESTAMPTZ
as Nat, DECIMAL amounts as Int, TEXT as String, nullable columns as
Option.  An INSERT checks the declared constraints (foreign keys,
primary-key and email uniqueness) and returns Except; a failed statement
leaves the database unchanged.  DELETE on organizers removes the matching
rows and cascades along the declared foreign keys, all computed against
the pre-state snapshot.  The BEFORE UPDATE trigger is a function on the
candidate row that overwrites updated_at with the current time. -/

namespace Agora

/-- A row of the users table: id UUID PK, name TEXT NOT NULL,
email TEXT UNIQUE NOT NULL, created_at and updated_at TIMESTAMPTZ NOT NULL. -/
structure UserRow where
  id : Nat
  name : String
  email : String
  created_at : Nat
  updated_at : Nat
  deriving DecidableEq, Repr

/-- A row of the organizers table: id UUID PK, name TEXT NOT NULL,
description TEXT (nullable), contact_email TEXT NOT NULL, timestamps. -/
structure OrganizerRow where
  id : Nat
  name : String
  description : Option String
  contact_email : String
  created_at : Nat
  updated_at : Nat
  deriving DecidableEq, Repr

/-- A row of the events table: id UUID PK, organizer_id UUID NOT NULL
REFERENCES organizers(id) ON DELETE CASCADE, title and location NOT NULL,
description and end_time nullable, start_time NOT NULL, timestamps. -/
structure EventRow where
  id : Nat
  organizer_id : Nat
  title : String
  description : Option String
  location : String
  start_time : Nat
  end_time : Option Nat
  created_at : Nat
  updated_at : Nat
  deriving DecidableEq, Repr

/-- A row of the ticket_tiers table: id UUID PK, event_id UUID NOT NULL
REFERENCES events(id) ON DELETE CASCADE, name NOT NULL, description
nullable, price DECIMAL NOT NULL, total_quantity and available_quantity
INTEGER NOT NULL (no constraint relates or bounds them), timestamps. -/
structure TicketTierRow where
  id : Nat
  event_id : Nat
  name : String
  description : Option String
  price : Int
  total_quantity : Int
  available_quantity : Int
  created_at : Nat
  updated_at : Nat
  deriving DecidableEq, Repr

/-- A row of the tickets table: id UUID PK, user_id UUID NOT NULL
REFERENCES users(id) ON DELETE CASCADE, ticket_tier_id UUID NOT NULL
REFERENCES ticket_tiers(id) ON DELETE CASCADE, status TEXT NOT NULL
(free text, the comment only suggests active/used/cancelled), qr_code
nullable, timestamps. -/
structure TicketRow where
  id : Nat
  user_id : Nat
  ticket_tier_id : Nat
  status : String
  qr_code : Option String
  created_at : Nat
  updated_at : Nat
  deriving DecidableEq, Repr

/-- A row of the transactions table: id UUID PK, ticket_id UUID NOT NULL
REFERENCES tickets(id) ON DELETE CASCADE, amount DECIMAL NOT NULL,
currency TEXT NOT NULL DEFAULT 'USD', status TEXT NOT NULL (free text,
the comment only suggests pending/completed/failed),
stellar_transaction_hash nullable, timestamps. -/
structure TransactionRow where
  id : Nat
  ticket_id : Nat
  amount : Int
  currency : String
  status : String
  stellar_transaction_hash : Option String
  created_at : Nat
  updated_at : Nat
  deriving DecidableEq, Repr

/-- The database state: the contents of the six tables of the schema. -/
structure DBState where
  users : List UserRow
  organizers : List OrganizerRow
  events : List EventRow
  ticket_tiers : List TicketTierRow
  tickets : List TicketRow
  transactions : List TransactionRow
  deriving DecidableEq, Repr

/-- Errors the schema's declared constraints can raise on a statement. -/
inductive DBError where
  | uniqueViolation
  | foreignKeyViolation
  deriving DecidableEq, Repr

/-- Does a users row with this id exist (primary-key lookup)? -/
def userIdExists (db : DBState) (i : Nat) : Bool :=
  db.users.any (fun u => u.id == i)

/-- Does a users row with this email exist (the UNIQUE column)? -/
def emailExists (db : DBState) (e : String) : Bool :=
  db.users.any (fun u => u.email == e)

/-- Does an organizers row with this id exist? -/
def organizerIdExists (db : DBState) (i : Nat) : Bool :=
  db.organizers.any (fun o => o.id == i)

/-- Does an events row with this id exist? -/
def eventIdExists (db : DBState) (i : Nat) : Bool :=
  db.events.any (fun e => e.id == i)

/-- Does a ticket_tiers row with this id exist? -/
def ticketTierIdExists (db : DBState) (i : Nat) : Bool :=
  db.ticket_tiers.any (fun t => t.id == i)

/-- Does a tickets row with this id exist? -/
def ticketIdExists (db : DBState) (i : Nat) : Bool :=
  db.tickets.any (fun t => t.id == i)

/-- Does a transactions row with this id exist? -/
def transactionIdExists (db : DBState) (i : Nat) : Bool :=
  db.transactions.any (fun t => t.id == i)

/-- INSERT into users: enforces the primary key and the UNIQUE email
constraint; NOT NULL holds by construction (no Option fields). -/
def insertUser (db : DBState) (row : UserRow) : Except DBError DBState :=
  if userIdExists db row.id then .error .uniqueViolation
  else if emailExists db row.email then .error .uniqueViolation
  else .ok { db with users := db.users ++ [row] }

/-- INSERT into organizers: enforces the primary key. -/
def insertOrganizer (db : DBState) (row : OrganizerRow) : Except DBError DBState :=
  if organizerIdExists db row.id then .error .uniqueViolation
  else .ok { db with organizers := db.organizers ++ [row] }

/-- INSERT into events: enforces the foreign key to organizers and the
primary key. -/
def insertEvent (db : DBState) (row : EventRow) : Except DBError DBState :=
  if ! organizerIdExists db row.organizer_id then .error .foreignKeyViolation
  else if eventIdExists db row.id then .error .uniqueViolation
  else .ok { db with events := db.events ++ [row] }

/-- INSERT into ticket_tiers: enforces the foreign key to events and the
primary key.  The schema declares no constraint on total_quantity or
available_quantity beyond NOT NULL. -/
def insertTicketTier (db : DBState) (row : TicketTierRow) : Except DBError DBState :=
  if ! eventIdExists db row.event_id then .error .foreignKeyViolation
  else if ticketTierIdExists db row.id then .error .uniqueViolation
  else .ok { db with ticket_tiers := db.ticket_tiers ++ [row] }

/-- INSERT into tickets: enforces the foreign keys to users and
ticket_tiers and the primary key; status is unconstrained text. -/
def insertTicket (db : DBState) (row : TicketRow) : Except DBError DBState :=
  if ! userIdExists db row.user_id then .error .foreignKeyViolation
  else if ! ticketTierIdExists db row.ticket_tier_id then .error .foreignKeyViolation
  else if ticketIdExists db row.id then .error .uniqueViolation
  else .ok { db with tickets := db.tickets ++ [row] }

/-- INSERT into transactions: enforces the foreign key to tickets and the
primary key; status is unconstrained text. -/
def insertTransaction (db : DBState) (row : TransactionRow) : Except DBError DBState :=
  if ! ticketIdExists db row.ticket_id then .error .foreignKeyViolation
  else if transactionIdExists db row.id then .error .uniqueViolation
  else .ok { db with transactions := db.transactions ++ [row] }

/-- A failed SQL statement leaves the database unchanged: commit the new
state on success, keep the old one on error. -/
def commitOr (db : DBState) (r : Except DBError DBState) : DBState :=
  match r with
  | .ok db' => db'
  | .error _ => db

/-- A fresh surrogate key, modelling the uuid_generate_v4() column
default: strictly larger than every id already in use in the table. -/
def freshId (ids : List Nat) : Nat :=
  ids.foldr (fun a b => max a b) 0 + 1

/-- INSERT into users letting the id, created_at and updated_at column
defaults apply (uuid_generate_v4() and NOW()). -/
def insertUserDefault (db : DBState) (name email : String) (now : Nat) :
    Except DBError DBState :=
  insertUser db
    { id := freshId (db.users.map (fun u => u.id)), name := name, email := email,
      created_at := now, updated_at := now }

/-- Builds a tickets row with the id and timestamp defaults applied. -/
def mkTicketRowDefault (db : DBState) (user_id ticket_tier_id : Nat)
    (status : String) (qr_code : Option String) (now : Nat) : TicketRow :=
  { id := freshId (db.tickets.map (fun t => t.id)), user_id := user_id,
    ticket_tier_id := ticket_tier_id, status := status, qr_code := qr_code,
    created_at := now, updated_at := now }

/-- INSERT into tickets letting the id and timestamp defaults apply. -/
def insertTicketDefault (db : DBState) (user_id ticket_tier_id : Nat)
    (status : String) (qr_code : Option String) (now : Nat) :
    Except DBError DBState :=
  insertTicket db (mkTicketRowDefault db user_id ticket_tier_id status qr_code now)

/-- Builds a transactions row applying the column defaults: a fresh id,
currency 'USD' when the statement supplies none, and NOW() timestamps. -/
def mkTransactionRowDefault (db : DBState) (ticket_id : Nat) (amount : Int)
    (currency : Option String) (status : String)
    (stellar_transaction_hash : Option String) (now : Nat) : TransactionRow :=
  { id := freshId (db.transactions.map (fun t => t.id)), ticket_id := ticket_id,
    amount := amount, currency := currency.getD "USD", status := status,
    stellar_transaction_hash := stellar_transaction_hash,
    created_at := now, updated_at := now }

/-- INSERT into transactions letting the id, currency and timestamp
column defaults apply. -/
def insertTransactionDefault (db : DBState) (ticket_id : Nat) (amount : Int)
    (currency : Option String) (status : String)
    (stellar_transaction_hash : Option String) (now : Nat) :
    Except DBError DBState :=
  insertTransaction db
    (mkTransactionRowDefault db ticket_id amount currency status
      stellar_transaction_hash now)

/-- Is an events row deleted by DELETE FROM organizers WHERE id = oid?
It cascades exactly when its organizer_id references a deleted organizers
row, computed against the pre-state snapshot. -/
def eventDeletedBy (db : DBState) (oid : Nat) (e : EventRow) : Bool :=
  db.organizers.any (fun o => o.id == oid && e.organizer_id == o.id)

/-- Is a ticket_tiers row deleted by the cascade: its event_id references
a deleted events row. -/
def tierDeletedBy (db : DBState) (oid : Nat) (t : TicketTierRow) : Bool :=
  db.events.any (fun e => eventDeletedBy db oid e && t.event_id == e.id)

/-- Is a tickets row deleted by the cascade: its ticket_tier_id
references a deleted ticket_tiers row. -/
def ticketDeletedBy (db : DBState) (oid : Nat) (tk : TicketRow) : Bool :=
  db.ticket_tiers.any (fun t => tierDeletedBy db oid t && tk.ticket_tier_id == t.id)

/-- Is a transactions row deleted by the cascade: its ticket_id
references a deleted tickets row. -/
def transactionDeletedBy (db : DBState) (oid : Nat) (tx : TransactionRow) : Bool :=
  db.tickets.any (fun tk => ticketDeletedBy db oid tk && tx.ticket_id == tk.id)

/-- DELETE FROM organizers WHERE id = oid, with the ON DELETE CASCADE
chain declared in the schema: organizers to events to ticket_tiers to
tickets to transactions.  Users never cascade from an organizer delete. -/
def deleteOrganizer (db : DBState) (oid : Nat) : DBState :=
  { users := db.users
    organizers := db.organizers.filter (fun o => ! (o.id == oid))
    events := db.events.filter (fun e => ! eventDeletedBy db oid e)
    ticket_tiers := db.ticket_tiers.filter (fun t => ! tierDeletedBy db oid t)
    tickets := db.tickets.filter (fun tk => ! ticketDeletedBy db oid tk)
    transactions := db.transactions.filter (fun tx => ! transactionDeletedBy db oid tx) }

/-- The trigger update_users_updated_at: BEFORE UPDATE ON users the
shared function update_updated_at_column overwrites NEW.updated_at with
NOW() and returns NEW otherwise untouched. -/
def update_users_updated_at (new : UserRow) (now : Nat) : UserRow :=
  { new with updated_at := now }

/-- The trigger update_organizers_updated_at: same trigger function bound
BEFORE UPDATE ON organizers. -/
def update_organizers_updated_at (new : OrganizerRow) (now : Nat) : OrganizerRow :=
  { new with updated_at := now }

/-- The trigger update_events_updated_at: same trigger function bound
BEFORE UPDATE ON events. -/
def update_events_updated_at (new : EventRow) (now : Nat) : EventRow :=
  { new with updated_at := now }

/-- The trigger update_ticket_tiers_updated_at: same trigger function
bound BEFORE UPDATE ON ticket_tiers. -/
def update_ticket_tiers_updated_at (new : TicketTierRow) (now : Nat) : TicketTierRow :=
  { new with updated_at := now }

/-- The trigger update_tickets_updated_at: same trigger function bound
BEFORE UPDATE ON tickets. -/
def update_tickets_updated_at (new : TicketRow) (now : Nat) : TicketRow :=
  { new with updated_at := now }

/-- The trigger update_transactions_updated_at: same trigger function
bound BEFORE UPDATE ON transactions. -/
def update_transactions_updated_at (new : TransactionRow) (now : Nat) : TransactionRow :=
  { new with updated_at := now }

/-- The card record type of organizer-component.tsx. -/
structure InfoCard where
  id : String
  title : String
  description : String
  image : String
  deriving DecidableEq, Repr

/-- The hard-coded cardsData array of organizer-component.tsx, verbatim. -/
def cardsData : List InfoCard :=
  [ { id := "stellar-west-africa",
      title := "Stellar West Africa",
      description := "Building and empowering the Stellar ecosystem in West Africa through education, developer support, and real-world blockchain adoption.",
      image := "/icons/stellar-west-africa.svg" },
    { id := "stellar-east-african-community",
      title := "Stellar East African Community",
      description := "Building and empowering the Stellar ecosystem in East Africa through education, developer support, and real-world blockchain adoption.",
      image := "/icons/stellar-east-africa.svg" },
    { id := "stellar-india",
      title := "Stellar India",
      description := "Building and empowering the Stellar ecosystem in West Africa through education, developer support, and real-world blockchain adoption.",
      image := "/icons/stellar-india.svg" },
    { id := "stellar-portugal",
      title := "Stellar Portugal",
      description := "Building and empowering the Stellar ecosystem in West Africa through education, developer support, and real-world blockchain adoption.",
      image := "/icons/stellar-portugal.svg" } ]

/-- A rendered organizer card: the component emits, for each entry of
cardsData in order, one card node keyed by the entry's id and showing its
title, description and image. -/
structure RenderedCard where
  key : String
  title : String
  description : String
  image : String
  deriving DecidableEq, Repr

/-- OrganizerComponent takes no props and renders cardsData.map: one card
per entry, in array order. -/
def OrganizerComponent : List RenderedCard :=
  cardsData.map (fun c =>
    { key := c.id, title := c.title, description := c.description, image := c.image })

/-- A sample users row used to instantiate the theorems. -/
def sampleUser : UserRow :=
  { id := 1, name := "Alice", email := "alice@example.com",
    created_at := 0, updated_at := 0 }

/-- A sample organizers row. -/
def sampleOrganizer : OrganizerRow :=
  { id := 1, name := "Org", description := none,
    contact_email := "org@example.com", created_at := 0, updated_at := 0 }

/-- A sample events row referencing the sample organizer. -/
def sampleEvent : EventRow :=
  { id := 1, organizer_id := 1, title := "Launch", description := none,
    location := "Lagos", start_time := 10, end_time := none,
    created_at := 0, updated_at := 0 }

/-- A sample ticket_tiers row referencing the sample event. -/
def sampleTier : TicketTierRow :=
  { id := 1, event_id := 1, name := "GA", description := none, price := 100,
    total_quantity := 10, available_quantity := 10,
    created_at := 0, updated_at := 0 }

/-- A sample tickets row referencing the sample user and tier. -/
def sampleTicket : TicketRow :=
  { id := 1, user_id := 1, ticket_tier_id := 1, status := "active",
    qr_code := none, created_at := 0, updated_at := 0 }

/-- A sample transactions row referencing the sample ticket. -/
def sampleTransaction : TransactionRow :=
  { id := 1, ticket_id := 1, amount := 100, currency := "USD",
    status := "completed", stellar_transaction_hash := none,
    created_at := 0, updated_at := 0 }

/-- A database holding one row in each table, with all foreign keys
satisfied. -/
def sampleDB : DBState :=
  { users := [sampleUser], organizers := [sampleOrganizer],
    events := [sampleEvent], ticket_tiers := [sampleTier],
    tickets := [sampleTicket], transactions := [sampleTransaction] }

/-- A candidate tier whose available_quantity exceeds total_quantity. -/
def overSoldTier : TicketTierRow :=
  { id := 2, event_id := 1, name := "VIP", description := none, price := 500,
    total_quantity := 10, available_quantity := 25,
    created_at := 0, updated_at := 0 }

/-- A candidate tier whose available_quantity is negative. -/
def negativeTier : TicketTierRow :=
  { id := 3, event_id := 1, name := "Backstage", description := none,
    price := 900, total_quantity := 10, available_quantity := -5,
    created_at := 0, updated_at := 0 }

/-- C4: the schema relates total_quantity and available_quantity by no
constraint: an insert with available_quantity strictly above
total_quantity succeeds, and so does one with a negative
available_quantity. -/
theorem ticket_tier_quantities_unconstrained :
    overSoldTier.available_quantity > overSoldTier.total_quantity ∧
    insertTicketTier sampleDB overSoldTier =
      .ok { sampleDB with ticket_tiers := sampleDB.ticket_tiers ++ [overSoldTier] } ∧
    negativeTier.available_quantity < 0 ∧
    insertTicketTier sampleDB negativeTier =
      .ok { sampleDB with ticket_tiers := sampleDB.ticket_tiers ++ [negativeTier] } := by
  exact ⟨by decide, rfl, by decide, rfl⟩

/-- C5: OrganizerComponent renders exactly four cards, keyed by
stellar-west-africa, stellar-east-african-community, stellar-india,
stellar-portugal, in that order. -/
theorem organizer_component_renders_four_cards :
    OrganizerComponent.length = 4 ∧
    OrganizerComponent.map (fun c => c.key) =
      ["stellar-west-africa", "stellar-east-african-community",
       "stellar-india", "stellar-portugal"] := by
  exact ⟨rfl, rfl⟩

/-- C9: the BEFORE UPDATE trigger function touches only updated_at: on
each of the six tables, every other column of the row the trigger
returns equals the corresponding column of the candidate row NEW it was
given. -/
theorem trigger_preserves_all_but_updated_at (u : UserRow) (o : OrganizerRow)
    (e : EventRow) (t : TicketTierRow) (tk : TicketRow) (tx : TransactionRow)
    (now : Nat) :
    ((update_users_updated_at u now).id = u.id ∧
     (update_users_updated_at u now).name = u.name ∧
     (update_users_updated_at u now).email = u.email ∧
     (update_users_updated_at u now).created_at = u.created_at) ∧
    ((update_organizers_updated_at o now).id = o.id ∧
     (update_organizers_updated_at o now).name = o.name ∧
     (update_organizers_updated_at o now).description = o.description ∧
     (update_organizers_updated_at o now).contact_email = o.contact_email ∧
     (update_organizers_updated_at o now).created_at = o.created_at) ∧
    ((update_events_updated_at e now).id = e.id ∧
     (update_events_updated_at e now).organizer_id = e.organizer_id ∧
     (update_events_updated_at e now).title = e.title ∧
     (update_events_updated_at e now).description = e.description ∧
     (update_events_updated_at e now).location = e.location ∧
     (update_events_updated_at e now).start_time = e.start_time ∧
     (update_events_updated_at e now).end_time = e.end_time ∧
     (update_events_updated_at e now).created_at = e.created_at) ∧
    ((update_ticket_tiers_updated_at t now).id = t.id ∧
     (update_ticket_tiers_updated_at t now).event_id = t.event_id ∧
     (update_ticket_tiers_updated_at t now).name = t.name ∧
     (update_ticket_tiers_updated_at t now).description = t.description ∧
     (update_ticket_tiers_updated_at t now).price = t.price ∧
     (update_ticket_tiers_updated_at t now).total_quantity = t.total_quantity ∧
     (update_ticket_tiers_updated_at t now).available_quantity = t.available_quantity ∧
     (update_ticket_tiers_updated_at t now).created_at = t.created_at) ∧
    ((update_tickets_updated_at tk now).id = tk.id ∧
     (update_tickets_updated_at tk now).user_id = tk.user_id ∧
     (update_tickets_updated_at tk now).ticket_tier_id = tk.ticket_tier_id ∧
     (update_tickets_updated_at tk now).status = tk.status ∧
     (update_tickets_updated_at tk now).qr_code = tk.qr_code ∧
     (update_tickets_updated_at tk now).created_at = tk.created_at) ∧
    ((update_transactions_updated_at tx now).id = tx.id ∧
     (update_transactions_updated_at tx now).ticket_id = tx.ticket_id ∧
     (update_transactions_updated_at tx now).amount = tx.amount ∧
     (update_transactions_updated_at tx now).currency = tx.currency ∧
     (update_transactions_updated_at tx now).status = tx.status ∧
     (update_transactions_updated_at tx now).stellar_transaction_hash = tx.stellar_transaction_hash ∧
     (update_transactions_updated_at tx now).created_at = tx.created_at) := by
  refine ⟨⟨rfl, rfl, rfl, rfl⟩, ⟨rfl, rfl, rfl, rfl, rfl⟩,
    ⟨rfl, rfl, rfl, rfl, rfl, rfl, rfl, rfl⟩,
    ⟨rfl, rfl, rfl, rfl, rfl, rfl, rfl, rfl⟩,
    ⟨rfl, rfl, rfl, rfl, rfl, rfl⟩, ⟨rfl, rfl, rfl, rfl, rfl, rfl, rfl⟩⟩

/-- C10: among the rendered cards, the descriptions of the stellar-india
and stellar-portugal cards are character-for-character identical to the
description of the stellar-west-africa card, and only the
stellar-east-african-community card carries a distinct description. -/
theorem organizer_card_descriptions_duplicated :
    (OrganizerComponent.get ⟨0, by decide⟩).key = "stellar-west-africa" ∧
    (OrganizerComponent.get ⟨1, by decide⟩).key = "stellar-east-african-community" ∧
    (OrganizerComponent.get ⟨2, by decide⟩).key = "stellar-india" ∧
    (OrganizerComponent.get ⟨3, by decide⟩).key = "stellar-portugal" ∧
    (OrganizerComponent.get ⟨2, by decide⟩).description =
      (OrganizerComponent.get ⟨0, by decide⟩).description ∧
    (OrganizerComponent.get ⟨3, by decide⟩).description =
      (OrganizerComponent.get ⟨0, by decide⟩).description ∧
    (OrganizerComponent.get ⟨1, by decide⟩).description ≠
      (OrganizerComponent.get ⟨0, by decide⟩).description := by
  refine ⟨rfl, rfl, rfl, rfl, rfl, rfl, ?_⟩
  decide

/-- Every member of a list is bounded by its max-fold. -/
theorem le_foldr_max (x : Nat) (ids : List Nat) (h : x ∈ ids) :
    x ≤ ids.foldr (fun a b => max a b) 0 := by
  induction ids with
  | nil => cases h
  | cons a l ih =>
    rcases List.mem_cons.mp h with rfl | h'
    · exact Nat.le_max_left _ _
    · exact Nat.le_trans (ih h') (Nat.le_max_right _ _)

/-- The generated surrogate key is genuinely fresh. -/
theorem freshId_not_mem (ids : List Nat) : freshId ids ∉ ids := by
  intro h
  have hle : freshId ids ≤ ids.foldr (fun a b => max a b) 0 := le_foldr_max _ _ h
  simp only [freshId] at hle
  omega

/-- No users row carries the freshly generated id. -/
theorem userIdExists_freshId (db : DBState) :
    userIdExists db (freshId (db.users.map (fun u => u.id))) = false := by
  simp only [userIdExists, List.any_eq_false, beq_iff_eq]
  intro u hu he
  exact freshId_not_mem _ (he ▸ List.mem_map_of_mem (fun u : UserRow => u.id) hu)

/-- No tickets row carries the freshly generated id. -/
theorem ticketIdExists_freshId (db : DBState) :
    ticketIdExists db (freshId (db.tickets.map (fun t => t.id))) = false := by
  simp only [ticketIdExists, List.any_eq_false, beq_iff_eq]
  intro t ht he
  exact freshId_not_mem _ (he ▸ List.mem_map_of_mem (fun t : TicketRow => t.id) ht)

/-- No transactions row carries the freshly generated id. -/
theorem transactionIdExists_freshId (db : DBState) :
    transactionIdExists db (freshId (db.transactions.map (fun t => t.id))) = false := by
  simp only [transactionIdExists, List.any_eq_false, beq_iff_eq]
  intro t ht he
  exact freshId_not_mem _ (he ▸ List.mem_map_of_mem (fun t : TransactionRow => t.id) ht)

/-- C2: with the column defaults applied, inserting a user whose email
already occurs in users fails with a uniqueness violation and leaves the
table unchanged, while inserting a user with a fresh email succeeds and
appends exactly that row. -/
theorem user_email_uniqueness (db : DBState) (name email : String) (now : Nat) :
    ((∃ u ∈ db.users, u.email = email) →
      insertUserDefault db name email now = .error .uniqueViolation ∧
      commitOr db (insertUserDefault db name email now) = db) ∧
    ((∀ u ∈ db.users, u.email ≠ email) →
      insertUserDefault db name email now =
        .ok { db with users := db.users ++
          [{ id := freshId (db.users.map (fun u => u.id)), name := name,
             email := email, created_at := now, updated_at := now }] }) := by
  have hid := userIdExists_freshId db
  constructor
  · rintro ⟨u, hu, he⟩
    have hem : emailExists db email = true := by
      simp only [emailExists, List.any_eq_true, beq_iff_eq]
      exact ⟨u, hu, he⟩
    refine ⟨?_, ?_⟩ <;> simp [insertUserDefault, insertUser, hid, hem, commitOr]
  · intro h
    have hem : emailExists db email = false := by
      simp only [emailExists, List.any_eq_false, beq_iff_eq]
      exact h
    simp [insertUserDefault, insertUser, hid, hem]

/-- C2 witness: on the sample database, re-inserting Alice's email fails
and leaves the state unchanged, while a new email succeeds. -/
theorem user_email_uniqueness_witness :
    (insertUserDefault sampleDB "Mallory" "alice@example.com" 5 = .error .uniqueViolation ∧
     commitOr sampleDB (insertUserDefault sampleDB "Mallory" "alice@example.com" 5) = sampleDB) ∧
    insertUserDefault sampleDB "Bob" "bob@example.com" 5 =
      .ok { sampleDB with users := sampleDB.users ++
        [{ id := freshId (sampleDB.users.map (fun u => u.id)), name := "Bob",
           email := "bob@example.com", created_at := 5, updated_at := 5 }] } := by
  refine ⟨(user_email_uniqueness sampleDB "Mallory" "alice@example.com" 5).1 ?_,
    (user_email_uniqueness sampleDB "Bob" "bob@example.com" 5).2 ?_⟩
  · exact ⟨sampleUser, by decide, rfl⟩
  · decide

/-- C3: on each of the six tables the BEFORE UPDATE trigger overwrites
updated_at of the updated row with the current time NOW(); whenever the
clock is at or past the row's stored timestamps, the stored updated_at
after a successful update is at least the previous updated_at and at
least created_at. -/
theorem updated_at_monotone
    (uOld new_u : UserRow) (oOld new_o : OrganizerRow) (eOld new_e : EventRow)
    (tOld new_t : TicketTierRow) (tkOld new_tk : TicketRow)
    (txOld new_tx : TransactionRow) (now : Nat)
    (hu1 : uOld.updated_at ≤ now) (hu2 : uOld.created_at ≤ now)
    (ho1 : oOld.updated_at ≤ now) (ho2 : oOld.created_at ≤ now)
    (he1 : eOld.updated_at ≤ now) (he2 : eOld.created_at ≤ now)
    (ht1 : tOld.updated_at ≤ now) (ht2 : tOld.created_at ≤ now)
    (htk1 : tkOld.updated_at ≤ now) (htk2 : tkOld.created_at ≤ now)
    (htx1 : txOld.updated_at ≤ now) (htx2 : txOld.created_at ≤ now) :
    ((update_users_updated_at new_u now).updated_at = now ∧
      uOld.updated_at ≤ (update_users_updated_at new_u now).updated_at ∧
      uOld.created_at ≤ (update_users_updated_at new_u now).updated_at) ∧
    ((update_organizers_updated_at new_o now).updated_at = now ∧
      oOld.updated_at ≤ (update_organizers_updated_at new_o now).updated_at ∧
      oOld.created_at ≤ (update_organizers_updated_at new_o now).updated_at) ∧
    ((update_events_updated_at new_e now).updated_at = now ∧
      eOld.updated_at ≤ (update_events_updated_at new_e now).updated_at ∧
      eOld.created_at ≤ (update_events_updated_at new_e now).updated_at) ∧
    ((update_ticket_tiers_updated_at new_t now).updated_at = now ∧
      tOld.updated_at ≤ (update_ticket_tiers_updated_at new_t now).updated_at ∧
      tOld.created_at ≤ (update_ticket_tiers_updated_at new_t now).updated_at) ∧
    ((update_tickets_updated_at new_tk now).updated_at = now ∧
      tkOld.updated_at ≤ (update_tickets_updated_at new_tk now).updated_at ∧
      tkOld.created_at ≤ (update_tickets_updated_at new_tk now).updated_at) ∧
    ((update_transactions_updated_at new_tx now).updated_at = now ∧
      txOld.updated_at ≤ (update_transactions_updated_at new_tx now).updated_at ∧
      txOld.created_at ≤ (update_transactions_updated_at new_tx now).updated_at) :=
  ⟨⟨rfl, hu1, hu2⟩, ⟨rfl, ho1, ho2⟩, ⟨rfl, he1, he2⟩,
   ⟨rfl, ht1, ht2⟩, ⟨rfl, htk1, htk2⟩, ⟨rfl, htx1, htx2⟩⟩

/-- C3 witness: instantiated on the sample rows with the clock at 7. -/
theorem updated_at_monotone_witness :
    (update_users_updated_at sampleUser 7).updated_at = 7 ∧
    sampleUser.updated_at ≤ (update_users_updated_at sampleUser 7).updated_at ∧
    sampleTransaction.created_at ≤ (update_transactions_updated_at sampleTransaction 7).updated_at := by
  have h := updated_at_monotone sampleUser sampleUser sampleOrganizer sampleOrganizer
    sampleEvent sampleEvent sampleTier sampleTier sampleTicket sampleTicket
    sampleTransaction sampleTransaction 7
    (by decide) (by decide) (by decide) (by decide) (by decide) (by decide)
    (by decide) (by decide) (by decide) (by decide) (by decide) (by decide)
  exact ⟨h.1.1, h.1.2.1, h.2.2.2.2.2.2.2⟩

/-- C7: the status columns are unconstrained free text: for any strings
s and s2 whatsoever (enumerated in the schema comments or not), a
tickets insert with status s and valid foreign keys succeeds, and a
transactions insert with status s2 and a valid ticket reference
succeeds; the stored rows carry exactly those statuses. -/
theorem status_is_free_text (db : DBState) (s s2 : String) (uid tid tkid : Nat)
    (qr hash : Option String) (amount : Int) (now : Nat)
    (hu : ∃ u ∈ db.users, u.id = uid)
    (ht : ∃ t ∈ db.ticket_tiers, t.id = tid)
    (htk : ∃ tk ∈ db.tickets, tk.id = tkid) :
    (insertTicketDefault db uid tid s qr now =
      .ok { db with tickets := db.tickets ++ [mkTicketRowDefault db uid tid s qr now] } ∧
     (mkTicketRowDefault db uid tid s qr now).status = s) ∧
    (insertTransactionDefault db tkid amount none s2 hash now =
      .ok { db with transactions := db.transactions ++
        [mkTransactionRowDefault db tkid amount none s2 hash now] } ∧
     (mkTransactionRowDefault db tkid amount none s2 hash now).status = s2) := by
  obtain ⟨u, humem, huid⟩ := hu
  obtain ⟨t, htmem, htid⟩ := ht
  obtain ⟨tk, htkmem, htkid⟩ := htk
  have h1 : userIdExists db uid = true := by
    simp only [userIdExists, List.any_eq_true, beq_iff_eq]
    exact ⟨u, humem, huid⟩
  have h2 : ticketTierIdExists db tid = true := by
    simp only [ticketTierIdExists, List.any_eq_true, beq_iff_eq]
    exact ⟨t, htmem, htid⟩
  have h3 : ticketIdExists db tkid = true := by
    simp only [ticketIdExists, List.any_eq_true, beq_iff_eq]
    exact ⟨tk, htkmem, htkid⟩
  have hf1 := ticketIdExists_freshId db
  have hf2 := transactionIdExists_freshId db
  refine ⟨⟨?_, rfl⟩, ⟨?_, rfl⟩⟩
  · simp [insertTicketDefault, insertTicket, mkTicketRowDefault, h1, h2, hf1]
  · simp [insertTransactionDefault, insertTransaction, mkTransactionRowDefault,
      h3, hf2]

/-- C7 witness: on the sample database, a ticket with an out-of-band
status and a transaction with an out-of-band status are both accepted. -/
theorem status_is_free_text_witness :
    insertTicketDefault sampleDB 1 1 "utterly-bogus" none 9 =
      .ok { sampleDB with tickets := sampleDB.tickets ++
        [mkTicketRowDefault sampleDB 1 1 "utterly-bogus" none 9] } ∧
    insertTransactionDefault sampleDB 1 42 none "no-such-status" none 9 =
      .ok { sampleDB with transactions := sampleDB.transactions ++
        [mkTransactionRowDefault sampleDB 1 42 none "no-such-status" none 9] } := by
  have h := status_is_free_text sampleDB "utterly-bogus" "no-such-status" 1 1 1
    none none 42 9 ⟨sampleUser, by decide, rfl⟩ ⟨sampleTier, by decide, rfl⟩
    ⟨sampleTicket, by decide, rfl⟩
  exact ⟨h.1.1, h.2.1⟩

/-- C8: a transactions insert that supplies no currency value succeeds
(given a valid ticket reference) and the stored row's currency is the
column default, the string USD. -/
theorem transaction_currency_defaults_to_usd (db : DBState) (tkid : Nat)
    (amount : Int) (s : String) (hash : Option String) (now : Nat)
    (h : ∃ tk ∈ db.tickets, tk.id = tkid) :
    insertTransactionDefault db tkid amount none s hash now =
      .ok { db with transactions := db.transactions ++
        [mkTransactionRowDefault db tkid amount none s hash now] } ∧
    (mkTransactionRowDefault db tkid amount none s hash now).currency = "USD" := by
  obtain ⟨tk, htkmem, htkid⟩ := h
  have h3 : ticketIdExists db tkid = true := by
    simp only [ticketIdExists, List.any_eq_true, beq_iff_eq]
    exact ⟨tk, htkmem, htkid⟩
  have hf := transactionIdExists_freshId db
  exact ⟨by simp [insertTransactionDefault, insertTransaction,
    mkTransactionRowDefault, h3, hf], rfl⟩

/-- C8 witness: instantiated on the sample database. -/
theorem transaction_currency_defaults_to_usd_witness :
    insertTransactionDefault sampleDB 1 42 none "pending" none 9 =
      .ok { sampleDB with transactions := sampleDB.transactions ++
        [mkTransactionRowDefault sampleDB 1 42 none "pending" none 9] } ∧
    (mkTransactionRowDefault sampleDB 1 42 none "pending" none 9).currency = "USD" :=
  transaction_currency_defaults_to_usd sampleDB 1 42 "pending" none 9
    ⟨sampleTicket, by decide, rfl⟩

/-- C6: an insert whose foreign key references no existing parent row
fails with a foreign-key violation and leaves the database unchanged:
an events insert with an unknown organizer_id, a ticket_tiers insert
with an unknown event_id, a tickets insert with an unknown user_id or an
unknown ticket_tier_id, and a transactions insert with an unknown
ticket_id. -/
theorem orphan_insert_foreign_key_violation (db : DBState) (e : EventRow)
    (t : TicketTierRow) (tk : TicketRow) (tx : TransactionRow)
    (he : ∀ o ∈ db.organizers, o.id ≠ e.organizer_id)
    (ht : ∀ ev ∈ db.events, ev.id ≠ t.event_id)
    (htk : (∀ u ∈ db.users, u.id ≠ tk.user_id) ∨
           (∀ tt ∈ db.ticket_tiers, tt.id ≠ tk.ticket_tier_id))
    (htx : ∀ ti ∈ db.tickets, ti.id ≠ tx.ticket_id) :
    (insertEvent db e = .error .foreignKeyViolation ∧
      commitOr db (insertEvent db e) = db) ∧
    (insertTicketTier db t = .error .foreignKeyViolation ∧
      commitOr db (insertTicketTier db t) = db) ∧
    (insertTicket db tk = .error .foreignKeyViolation ∧
      commitOr db (insertTicket db tk) = db) ∧
    (insertTransaction db tx = .error .foreignKeyViolation ∧
      commitOr db (insertTransaction db tx) = db) := by
  have h1 : organizerIdExists db e.organizer_id = false := by
    simp only [organizerIdExists, List.any_eq_false, beq_iff_eq]
    exact he
  have h2 : eventIdExists db t.event_id = false := by
    simp only [eventIdExists, List.any_eq_false, beq_iff_eq]
    exact ht
  have h4 : ticketIdExists db tx.ticket_id = false := by
    simp only [ticketIdExists, List.any_eq_false, beq_iff_eq]
    exact htx
  have h3 : insertTicket db tk = .error .foreignKeyViolation := by
    rcases htk with hl | hr
    · have : userIdExists db tk.user_id = false := by
        simp only [userIdExists, List.any_eq_false, beq_iff_eq]
        exact hl
      simp [insertTicket, this]
    · have hb : ticketTierIdExists db tk.ticket_tier_id = false := by
        simp only [ticketTierIdExists, List.any_eq_false, beq_iff_eq]
        exact hr
      by_cases hc : userIdExists db tk.user_id
      · simp [insertTicket, hc, hb]
      · simp [insertTicket, hc]
  refine ⟨⟨?_, ?_⟩, ⟨?_, ?_⟩, ⟨h3, ?_⟩, ⟨?_, ?_⟩⟩ <;>
    simp [insertEvent, insertTicketTier, insertTransaction, commitOr, h1, h2, h3, h4]

/-- C6 witness: on the sample database, orphan rows referencing the
unused id 99 are all rejected with a foreign-key violation. -/
theorem orphan_insert_foreign_key_violation_witness :
    insertEvent sampleDB { sampleEvent with id := 2, organizer_id := 99 } =
      .error .foreignKeyViolation ∧
    insertTicketTier sampleDB { sampleTier with id := 4, event_id := 99 } =
      .error .foreignKeyViolation ∧
    insertTicket sampleDB { sampleTicket with id := 2, user_id := 99 } =
      .error .foreignKeyViolation ∧
    insertTransaction sampleDB { sampleTransaction with id := 2, ticket_id := 99 } =
      .error .foreignKeyViolation ∧
    commitOr sampleDB (insertEvent sampleDB { sampleEvent with id := 2, organizer_id := 99 }) =
      sampleDB := by
  have h := orphan_insert_foreign_key_violation sampleDB
    { sampleEvent with id := 2, organizer_id := 99 }
    { sampleTier with id := 4, event_id := 99 }
    { sampleTicket with id := 2, user_id := 99 }
    { sampleTransaction with id := 2, ticket_id := 99 }
    (by decide) (by decide) (Or.inl (by decide)) (by decide)
  exact ⟨h.1.1, h.2.1.1, h.2.2.1.1, h.2.2.2.1, h.1.2⟩

/-- Lifts a characterization of a Bool test to its negation. -/
theorem deleted_false_iff {b : Bool} {p : Prop} (h : b = true ↔ p) :
    (! b) = true ↔ ¬ p := by
  cases b <;> simp_all

/-- When the deleted organizer row exists, an events row cascades exactly
when its organizer_id is the deleted id. -/
theorem eventDeletedBy_iff (db : DBState) (oid : Nat)
    (h : ∃ o ∈ db.organizers, o.id = oid) (e : EventRow) :
    eventDeletedBy db oid e = true ↔ e.organizer_id = oid := by
  simp only [eventDeletedBy, List.any_eq_true, Bool.and_eq_true, beq_iff_eq]
  constructor
  · rintro ⟨o, _, rfl, h2⟩
    exact h2
  · rintro rfl
    obtain ⟨o, ho, hid⟩ := h
    exact ⟨o, ho, hid, hid.symm⟩

/-- A ticket_tiers row cascades exactly when its event_id references an
events row of the deleted organizer. -/
theorem tierDeletedBy_iff (db : DBState) (oid : Nat)
    (h : ∃ o ∈ db.organizers, o.id = oid) (t : TicketTierRow) :
    tierDeletedBy db oid t = true ↔
      ∃ e ∈ db.events, e.organizer_id = oid ∧ t.event_id = e.id := by
  simp only [tierDeletedBy, List.any_eq_true, Bool.and_eq_true, beq_iff_eq,
    eventDeletedBy_iff db oid h]

/-- A tickets row cascades exactly when its ticket_tier_id references a
cascading ticket_tiers row. -/
theorem ticketDeletedBy_iff (db : DBState) (oid : Nat)
    (h : ∃ o ∈ db.organizers, o.id = oid) (tk : TicketRow) :
    ticketDeletedBy db oid tk = true ↔
      ∃ t ∈ db.ticket_tiers,
        (∃ e ∈ db.events, e.organizer_id = oid ∧ t.event_id = e.id) ∧
        tk.ticket_tier_id = t.id := by
  simp only [ticketDeletedBy, List.any_eq_true, Bool.and_eq_true, beq_iff_eq,
    tierDeletedBy_iff db oid h]

/-- A transactions row cascades exactly when its ticket_id references a
cascading tickets row. -/
theorem transactionDeletedBy_iff (db : DBState) (oid : Nat)
    (h : ∃ o ∈ db.organizers, o.id = oid) (tx : TransactionRow) :
    transactionDeletedBy db oid tx = true ↔
      ∃ tk ∈ db.tickets,
        (∃ t ∈ db.ticket_tiers,
          (∃ e ∈ db.events, e.organizer_id = oid ∧ t.event_id = e.id) ∧
          tk.ticket_tier_id = t.id) ∧
        tx.ticket_id = tk.id := by
  simp only [transactionDeletedBy, List.any_eq_true, Bool.and_eq_true, beq_iff_eq,
    ticketDeletedBy_iff db oid h]

/-- C1: deleting an existing organizer removes that organizers row, every
events row referencing it, every ticket_tiers row referencing one of
those events, every tickets row referencing one of those tiers, and every
transactions row referencing one of those tickets — and nothing else:
users are untouched and each surviving row is characterized exactly. -/
theorem delete_organizer_cascades (db : DBState) (oid : Nat)
    (h : ∃ o ∈ db.organizers, o.id = oid) :
    (∀ u : UserRow, u ∈ (deleteOrganizer db oid).users ↔ u ∈ db.users) ∧
    (∀ o : OrganizerRow, o ∈ (deleteOrganizer db oid).organizers ↔
      o ∈ db.organizers ∧ ¬ o.id = oid) ∧
    (∀ e : EventRow, e ∈ (deleteOrganizer db oid).events ↔
      e ∈ db.events ∧ ¬ e.organizer_id = oid) ∧
    (∀ t : TicketTierRow, t ∈ (deleteOrganizer db oid).ticket_tiers ↔
      t ∈ db.ticket_tiers ∧
      ¬ ∃ e ∈ db.events, e.organizer_id = oid ∧ t.event_id = e.id) ∧
    (∀ tk : TicketRow, tk ∈ (deleteOrganizer db oid).tickets ↔
      tk ∈ db.tickets ∧
      ¬ ∃ t ∈ db.ticket_tiers,
        (∃ e ∈ db.events, e.organizer_id = oid ∧ t.event_id = e.id) ∧
        tk.ticket_tier_id = t.id) ∧
    (∀ tx : TransactionRow, tx ∈ (deleteOrganizer db oid).transactions ↔
      tx ∈ db.transactions ∧
      ¬ ∃ tk ∈ db.tickets,
        (∃ t ∈ db.ticket_tiers,
          (∃ e ∈ db.events, e.organizer_id = oid ∧ t.event_id = e.id) ∧
          tk.ticket_tier_id = t.id) ∧
        tx.ticket_id = tk.id) := by
  refine ⟨fun u => Iff.rfl, ?_, ?_, ?_, ?_, ?_⟩
  · intro o
    simp [deleteOrganizer, List.mem_filter]
  · intro e
    simp only [deleteOrganizer, List.mem_filter,
      deleted_false_iff (eventDeletedBy_iff db oid h e)]
  · intro t
    simp only [deleteOrganizer, List.mem_filter,
      deleted_false_iff (tierDeletedBy_iff db oid h t)]
  · intro tk
    simp only [deleteOrganizer, List.mem_filter,
      deleted_false_iff (ticketDeletedBy_iff db oid h tk)]
  · intro tx
    simp only [deleteOrganizer, List.mem_filter,
      deleted_false_iff (transactionDeletedBy_iff db oid h tx)]

/-- C1 witness: on the sample database organizer 1 exists, and the users
conjunct instantiates at the sample user. -/
theorem delete_organizer_cascades_witness :
    (∃ o ∈ sampleDB.organizers, o.id = 1) ∧
    (sampleUser ∈ (deleteOrganizer sampleDB 1).users ↔
      sampleUser ∈ sampleDB.users) :=
  ⟨⟨sampleOrganizer, by decide, rfl⟩,
   (delete_organizer_cascades sampleDB 1 ⟨sampleOrganizer, by decide, rfl⟩).1 sampleUser⟩

end Agora
